import Mathlib

/-!
Shallow embedding of the role-permission and audit-trail core of the
graphql_todos_backend repository: the UserRole hierarchy, the User entity
with its can_manage / soft_delete / restore operations, and the
UserRoleHistory audit record with its factory and derived predicates.

Timestamps are modelled as natural numbers; the current UTC instant that
the implementation obtains from the clock inside soft_delete is passed in
explicitly as a parameter. Field mutation is modelled by returning the
updated record; the fallible soft_delete returns an Except whose error
carries the diagnostic message built by the implementation.
-/

namespace TodosBackend

/-- Role enumeration from app/v1/models/user.py: USER = 1, ADMIN = 2,
SUPERADMIN = 3. -/
inductive UserRole
  | USER
  | ADMIN
  | SUPERADMIN
  deriving DecidableEq, Repr

/-- Numeric rank of a role (the IntEnum value). -/
def UserRole.value : UserRole → Nat
  | .USER => 1
  | .ADMIN => 2
  | .SUPERADMIN => 3

/-- Uppercase enum member name, as Python exposes via the name attribute. -/
def UserRole.name : UserRole → String
  | .USER => "USER"
  | .ADMIN => "ADMIN"
  | .SUPERADMIN => "SUPERADMIN"

/-- UserRole.can_manage: a role can manage another role only if it has a
strictly higher permission level. -/
def UserRole.can_manage (self other : UserRole) : Bool :=
  self.value > other.value

/-- The User entity: core fields from app/v1/models/user.py plus the audit
fields inherited from TimestampMixin in app/v1/db/base.py that the domain
operations touch (deleted_at, deleted_by_id). -/
structure User where
  id : Nat
  email : String
  hashed_password : String
  full_name : String
  role : UserRole
  is_active : Bool
  created_by_id : Option Nat
  deleted_at : Option Nat
  deleted_by_id : Option Nat
  deriving DecidableEq, Repr

/-- A freshly constructed User row with the declared column defaults:
role USER, is_active true, created_by_id null, deleted_at null,
deleted_by_id null. -/
def User.fresh (id : Nat) (email hashed_password full_name : String) : User :=
  { id := id
    email := email
    hashed_password := hashed_password
    full_name := full_name
    role := UserRole.USER
    is_active := true
    created_by_id := none
    deleted_at := none
    deleted_by_id := none }

/-- User.can_manage: cannot manage yourself; otherwise delegate to the role
hierarchy comparison. -/
def User.can_manage (self other_user : User) : Bool :=
  if self.id == other_user.id then
    false
  else
    self.role.can_manage other_user.role

/-- User.soft_delete: raises (ValueError in the source) when the actor
cannot manage the subject, with a message carrying both emails and role
names; on success sets deleted_at to the current instant, deleted_by_id to
the actor id, and is_active to false. The updated subject is returned in
the ok case; the error case produces no updated subject. -/
def User.soft_delete (self : User) (db : User) (now : Nat) : Except String User :=
  if !(db.can_manage self) then
    Except.error ("User " ++ db.email ++ " (role=" ++ db.role.name ++
      ") cannot delete user " ++ self.email ++ " (role=" ++ self.role.name ++ ")")
  else
    Except.ok { self with
      deleted_at := some now
      deleted_by_id := some db.id
      is_active := false }

/-- User.restore: unconditionally clears deleted_at and deleted_by_id and
nothing else. -/
def User.restore (self : User) : User :=
  { self with deleted_at := none, deleted_by_id := none }

/-- The UserRoleHistory record: fields that the factory in
app/v1/models/user_role_history.py populates. -/
structure UserRoleHistory where
  user_id : Nat
  old_role : UserRole
  new_role : UserRole
  changed_by_id : Nat
  reason : Option String
  deriving DecidableEq, Repr

/-- UserRoleHistory.create_for_role_change: captures the current role of
the user as old_role, stamps new_role, the changing actor id and the
optional reason. -/
def UserRoleHistory.create_for_role_change (user : User) (new_role : UserRole)
    (changed_by : User) (reason : Option String) : UserRoleHistory :=
  { user_id := user.id
    old_role := user.role
    new_role := new_role
    changed_by_id := changed_by.id
    reason := reason }

/-- was_promotion: new role strictly above the old one. -/
def UserRoleHistory.was_promotion (self : UserRoleHistory) : Bool :=
  self.new_role.value > self.old_role.value

/-- was_demotion: new role strictly below the old one. -/
def UserRoleHistory.was_demotion (self : UserRoleHistory) : Bool :=
  self.new_role.value < self.old_role.value

/-- role_change_description: OLD → NEW with a promotion or demotion
suffix when applicable. -/
def UserRoleHistory.role_change_description (self : UserRoleHistory) : String :=
  let direction :=
    if self.was_promotion then " (promotion)"
    else if self.was_demotion then " (demotion)"
    else ""
  self.old_role.name ++ " → " ++ self.new_role.name ++ direction

/-- Whether deleted_at and deleted_by_id are both set or both null. -/
def deletionConsistent (u : User) : Bool :=
  u.deleted_at.isSome == u.deleted_by_id.isSome

/-- Deletion-field consistency of the state soft_delete leaves behind: the
updated subject in the ok case; in the error case no updated subject is
produced, so the subject is untouched and there is nothing to check. -/
def soft_delete_result_consistent (u a : User) (now : Nat) : Bool :=
  match u.soft_delete a now with
  | Except.ok s2 => deletionConsistent s2
  | Except.error _ => true

/-- Whether soft_delete returns normally. -/
def soft_delete_succeeds (s a : User) (now : Nat) : Bool :=
  match s.soft_delete a now with
  | Except.ok _ => true
  | Except.error _ => false

/- Sample users used by the witness theorems. -/

/-- A concrete ADMIN user. -/
def adminUser : User :=
  { id := 1
    email := "admin@example.com"
    hashed_password := "h1"
    full_name := "Admin"
    role := UserRole.ADMIN
    is_active := true
    created_by_id := none
    deleted_at := none
    deleted_by_id := none }

/-- A concrete USER-role user. -/
def plainUser : User :=
  { id := 2
    email := "user@example.com"
    hashed_password := "h2"
    full_name := "Plain"
    role := UserRole.USER
    is_active := true
    created_by_id := none
    deleted_at := none
    deleted_by_id := none }

/-- A user that is already soft deleted and inactive. -/
def deletedUser : User :=
  { id := 3
    email := "gone@example.com"
    hashed_password := "h3"
    full_name := "Gone"
    role := UserRole.USER
    is_active := false
    created_by_id := none
    deleted_at := some 1
    deleted_by_id := some 1 }

/-- The same identity and role as adminUser, but soft deleted and
deactivated. -/
def deletedAdmin : User :=
  { id := 1
    email := "admin@example.com"
    hashed_password := "h1"
    full_name := "Admin"
    role := UserRole.ADMIN
    is_active := false
    created_by_id := none
    deleted_at := some 4
    deleted_by_id := some 2 }

/- Claim theorems. -/

/-- Claim C1: for every pair of users, can_manage returns false when they
have the same id regardless of roles, and otherwise returns exactly the
strict role-rank comparison of their role values. -/
theorem user_can_manage_characterization (u v : User) :
    u.can_manage v = (!(u.id == v.id) && decide (u.role.value > v.role.value)) := by
  unfold User.can_manage UserRole.can_manage
  cases h : (u.id == v.id) <;> simp [h]

/-- Claim C2: when the actor cannot manage the subject, soft_delete fails
with an error carrying both emails and both role names, and produces no
updated subject, so deleted_at, deleted_by_id and is_active are left
unchanged. -/
theorem soft_delete_denied_error (s a : User) (now : Nat)
    (h : a.can_manage s = false) :
    s.soft_delete a now =
      Except.error ("User " ++ a.email ++ " (role=" ++ a.role.name ++
        ") cannot delete user " ++ s.email ++ " (role=" ++ s.role.name ++ ")") := by
  unfold User.soft_delete
  simp [h]

/-- Witness for C2: a USER-role actor cannot delete an ADMIN. -/
theorem soft_delete_denied_error_witness :
    adminUser.soft_delete plainUser 0 =
      Except.error ("User " ++ plainUser.email ++ " (role=" ++ plainUser.role.name ++
        ") cannot delete user " ++ adminUser.email ++ " (role=" ++ adminUser.role.name ++ ")") :=
  soft_delete_denied_error adminUser plainUser 0 (by decide)

/-- Claim C3: when the actor can manage the subject, soft_delete returns
normally and afterwards deleted_at is the current instant (non null),
deleted_by_id is the actor id, and is_active is false. -/
theorem soft_delete_success_fields (s a : User) (now : Nat)
    (h : a.can_manage s = true) :
    s.soft_delete a now =
      Except.ok { s with
        deleted_at := some now
        deleted_by_id := some a.id
        is_active := false } := by
  unfold User.soft_delete
  simp [h]

/-- Witness for C3: an ADMIN soft deletes a USER. -/
theorem soft_delete_success_fields_witness :
    plainUser.soft_delete adminUser 5 =
      Except.ok { plainUser with
        deleted_at := some 5
        deleted_by_id := some adminUser.id
        is_active := false } :=
  soft_delete_success_fields plainUser adminUser 5 (by decide)

/-- Claim C4: on roles, can_manage is exactly the strict comparison of
numeric ranks, total on all pairs and without side effects, and in
particular false on equal roles. -/
theorem role_can_manage_strict_rank (a b : UserRole) :
    a.can_manage b = decide (a.value > b.value) ∧ a.can_manage a = false :=
  ⟨rfl, by cases a <;> decide⟩

/-- Claim C5: restore never fails, clears exactly deleted_at and
deleted_by_id, and leaves every other field unchanged, in particular
is_active. -/
theorem restore_clears_only_deletion_fields (u : User) :
    u.restore.deleted_at = none ∧ u.restore.deleted_by_id = none ∧
    u.restore.is_active = u.is_active ∧ u.restore.id = u.id ∧
    u.restore.email = u.email ∧ u.restore.hashed_password = u.hashed_password ∧
    u.restore.full_name = u.full_name ∧ u.restore.role = u.role ∧
    u.restore.created_by_id = u.created_by_id :=
  ⟨rfl, rfl, rfl, rfl, rfl, rfl, rfl, rfl, rfl⟩

/-- Claim C6: the history factory captures the current role of the user as
old_role, stamps new_role, the user id, the changing actor id and the
reason unchanged; it holds for every new_role, including one equal to the
current role, and it does not mutate the user. -/
theorem create_for_role_change_fields (u : User) (r : UserRole) (c : User)
    (reason : Option String) :
    (UserRoleHistory.create_for_role_change u r c reason).old_role = u.role ∧
    (UserRoleHistory.create_for_role_change u r c reason).new_role = r ∧
    (UserRoleHistory.create_for_role_change u r c reason).user_id = u.id ∧
    (UserRoleHistory.create_for_role_change u r c reason).changed_by_id = c.id ∧
    (UserRoleHistory.create_for_role_change u r c reason).reason = reason :=
  ⟨rfl, rfl, rfl, rfl, rfl⟩

/-- Claim C7: was_promotion is the strict greater-than comparison of role
values, was_demotion the strict less-than one (both false on equality),
and role_change_description is OLD → NEW with the matching suffix. -/
theorem history_predicates_and_description (h : UserRoleHistory) :
    h.was_promotion = decide (h.new_role.value > h.old_role.value) ∧
    h.was_demotion = decide (h.new_role.value < h.old_role.value) ∧
    h.role_change_description =
      h.old_role.name ++ " → " ++ h.new_role.name ++
        (if h.was_promotion then " (promotion)"
         else if h.was_demotion then " (demotion)"
         else "") :=
  ⟨rfl, rfl, rfl⟩

/-- Claim C8: deleted_at and deleted_by_id are both none on a freshly
constructed user, are set together by a successful soft_delete (a failing
one produces no updated subject), and are cleared together by restore. -/
theorem deletion_fields_invariant (id : Nat) (e hp fn : String)
    (u a : User) (now : Nat) :
    deletionConsistent (User.fresh id e hp fn) = true ∧
    (User.fresh id e hp fn).deleted_at = none ∧
    (User.fresh id e hp fn).deleted_by_id = none ∧
    soft_delete_result_consistent u a now = true ∧
    deletionConsistent u.restore = true ∧
    u.restore.deleted_at = none ∧ u.restore.deleted_by_id = none := by
  refine ⟨rfl, rfl, rfl, ?_, rfl, rfl, rfl⟩
  cases hc : a.can_manage u <;>
    simp [soft_delete_result_consistent, User.soft_delete, deletionConsistent, hc]

/-- Claim C9: soft_delete has no freshness precondition on the subject:
an already soft-deleted subject is soft deleted again, its deleted_at
overwritten with the new instant and its deleted_by_id with the new actor,
discarding the prior attribution. -/
theorem soft_delete_overwrites_prior_deletion (s a : User) (t now : Nat)
    (h1 : s.deleted_at = some t) (h2 : a.can_manage s = true) :
    s.soft_delete a now =
      Except.ok { s with
        deleted_at := some now
        deleted_by_id := some a.id
        is_active := false } := by
  unfold User.soft_delete
  simp [h2]

/-- Witness for C9: adminUser soft deletes deletedUser, which already has
deleted_at = some 1 and deleted_by_id = some 1. -/
theorem soft_delete_overwrites_prior_deletion_witness :
    deletedUser.soft_delete adminUser 9 =
      Except.ok { deletedUser with
        deleted_at := some 9
        deleted_by_id := some adminUser.id
        is_active := false } :=
  soft_delete_overwrites_prior_deletion deletedUser adminUser 1 9 rfl (by decide)

/-- Claim C10: User.can_manage reads only the id and role of the two
users: two runs on users agreeing on id and role give the same result,
and soft_delete succeeds or fails identically, so a soft-deleted or
deactivated actor still passes the check and can still soft delete. -/
theorem can_manage_ignores_activity_fields (u v u2 v2 : User) (n1 n2 : Nat)
    (h1 : u2.id = u.id) (h2 : u2.role = u.role)
    (h3 : v2.id = v.id) (h4 : v2.role = v.role) :
    u2.can_manage v2 = u.can_manage v ∧
    soft_delete_succeeds v2 u2 n1 = soft_delete_succeeds v u n2 := by
  have hcm : u2.can_manage v2 = u.can_manage v := by
    unfold User.can_manage UserRole.can_manage
    rw [h1, h2, h3, h4]
  refine ⟨hcm, ?_⟩
  cases hc : u.can_manage v <;>
    simp [soft_delete_succeeds, User.soft_delete, hcm, hc]

/-- Witness for C10: deletedAdmin differs from adminUser only in
is_active, deleted_at and deleted_by_id, and its permission check and
soft-delete success against plainUser are identical. -/
theorem can_manage_ignores_activity_fields_witness :
    deletedAdmin.can_manage plainUser = adminUser.can_manage plainUser ∧
    soft_delete_succeeds plainUser deletedAdmin 3 = soft_delete_succeeds plainUser adminUser 8 :=
  can_manage_ignores_activity_fields adminUser plainUser deletedAdmin plainUser 3 8
    rfl rfl rfl rfl

end TodosBackend
